import Mathlib

/-!
Shallow embedding of the AI-copy-assistant server logic.

The embedded code lives in:
* `generateCopySuggestions` (OpenRouter client): prompt composition and
  response post-processing;
* the `POST /generate` route handler: validation and persistence ordering;
* the `PUT` / `DELETE` `/product-types/[id]` route handlers;
* the `POST /upload-reference` route handler: file validation.

JavaScript string operations (`split('\n')`, `trim()`, truthiness) are
embedded as structural recursions on character lists so that every
definition evaluates by kernel reduction.
-/

/-- JS `s.split('\n')` on the underlying character list: splitting an empty
string yields `[[]]` (JS returns `['']`). -/
def splitNlChars : List Char → List (List Char)
  | [] => [[]]
  | c :: cs =>
    let r := splitNlChars cs
    if c = '\n' then [] :: r
    else
      match r with
      | [] => [[c]]
      | x :: xs => (c :: x) :: xs

/-- JS `content.split('\n')` as an operation on `String`. -/
def splitNl (s : String) : List String :=
  (splitNlChars s.data).map (fun l => String.mk l)

/-- JS `String.prototype.trim` on the character list: drop whitespace from
both ends. -/
def trimChars (l : List Char) : List Char :=
  ((l.dropWhile Char.isWhitespace).reverse.dropWhile Char.isWhitespace).reverse

/-- JS `line.trim()` as an operation on `String`. -/
def jsTrim (s : String) : String :=
  String.mk (trimChars s.data)

/-- Placeholder returned by `generateCopySuggestions` when post-processing
yields no suggestions. -/
def noSuggestionsPlaceholder : String :=
  "Unable to generate suggestions at this time."

/-- Post-processing of a successful chat-completion body in
`generateCopySuggestions`:
`content.split('\n').map(l => l.trim()).filter(l => l.length > 0).slice(0, 3)`,
returning the placeholder list when the result is empty. -/
def parseSuggestions (content : String) : List String :=
  let suggestions :=
    ((((splitNl content).map jsTrim).filter (fun line => line.length > 0)).take 3)
  if suggestions.length > 0 then suggestions
  else [noSuggestionsPlaceholder]

theorem string_length_pos_iff (s : String) : 0 < s.length ↔ s ≠ "" := by
  cases s with
  | mk data =>
    cases data with
    | nil => simp [String.length]
    | cons c cs =>
      constructor
      · intro _ heq
        exact List.noConfusion (congrArg String.data heq)
      · intro _
        simp [String.length]

theorem parseSuggestions_length_pos (content : String) :
    0 < (parseSuggestions content).length := by
  unfold parseSuggestions
  set l := ((((splitNl content).map jsTrim).filter (fun line => line.length > 0)).take 3) with hl
  by_cases h : l.length > 0
  · simp only [if_pos h]
    exact h
  · simp [h]

theorem parseSuggestions_all_blank (content : String)
    (h : ∀ line ∈ splitNl content, jsTrim line = "") :
    parseSuggestions content = [noSuggestionsPlaceholder] := by
  unfold parseSuggestions
  have hfilter :
      ((splitNl content).map jsTrim).filter (fun line => line.length > 0) = [] := by
    apply List.filter_eq_nil_iff.mpr
    intro a ha
    obtain ⟨line, hline, rfl⟩ := List.mem_map.mp ha
    have := h line hline
    rw [this]
    decide
  simp [hfilter]

/-- C1: the Suggestion Generator post-processing always returns at most 3
entries, never the empty list, at least one entry whenever the response has a
non-empty line, and exactly the one-element placeholder list when every line
is blank after trimming. -/
theorem generateCopySuggestions_postprocess_spec (content : String) :
    (parseSuggestions content).length ≤ 3 ∧
    parseSuggestions content ≠ [] ∧
    ((∃ line ∈ splitNl content, jsTrim line ≠ "") →
      1 ≤ (parseSuggestions content).length) ∧
    ((∀ line ∈ splitNl content, jsTrim line = "") →
      parseSuggestions content = [noSuggestionsPlaceholder]) := by
  refine ⟨?_, ?_, ?_, parseSuggestions_all_blank content⟩
  · unfold parseSuggestions
    set l := ((((splitNl content).map jsTrim).filter (fun line => line.length > 0)).take 3)
      with hl
    by_cases h : l.length > 0
    · simp only [if_pos h, hl]
      rw [List.length_take]
      exact Nat.min_le_left _ _
    · simp [h]
  · intro hnil
    have := parseSuggestions_length_pos content
    rw [hnil] at this
    simp at this
  · intro _
    exact parseSuggestions_length_pos content

/-- Witness for C1 at concrete inputs: a blank-lines-only response and a
response with non-empty lines. -/
theorem generateCopySuggestions_postprocess_spec_witness :
    parseSuggestions "\n \n" = [noSuggestionsPlaceholder] ∧
    1 ≤ (parseSuggestions "a\nb").length :=
  ⟨(generateCopySuggestions_postprocess_spec "\n \n").2.2.2 (by decide),
   (generateCopySuggestions_postprocess_spec "a\nb").2.2.1 (by decide)⟩

/-- JS `x || default` for an optional string field: `undefined` and `''` are
falsy. -/
def jsOr (o : Option String) (default : String) : String :=
  match o with
  | none => default
  | some s => if s = "" then default else s

/-- JS truthiness of an optional string: present and non-empty. -/
def jsTruthy (o : Option String) : Bool :=
  match o with
  | none => false
  | some s => s ≠ ""

/-- The `CopyContext` interface of the OpenRouter client: `mode` plus the
optional context fields. -/
structure CopyContext where
  mode : String
  userType : Option String := none
  errorType : Option String := none
  canFix : Option String := none
  surface : Option String := none
deriving DecidableEq, Repr

/-- System prompt of `generateCopySuggestions` before the reference-files
extension, dispatching on `context?.mode`. -/
def buildSystemPromptBase (productInstructions : String)
    (context : Option CopyContext) : String :=
  match context with
  | some c =>
    if c.mode = "improve_copy" then
      "You are an expert UX copywriter specializing in improving existing UI copy. " ++
      productInstructions ++
      "\n\nYour task is to improve existing UI copy to make it clearer, more helpful, and more user-friendly.\n\nAlways provide exactly 2-3 improved alternatives. Each suggestion should be on a new line. Do not include numbers, bullets, or extra formatting - just the clean copy suggestions."
    else if c.mode = "write_new" then
      "You are an expert UX copywriter specializing in writing new error messages. " ++
      productInstructions ++
      "\n\nYour task is to create new error message copy based on the context provided:\n- User type: " ++
      jsOr c.userType "unknown" ++
      "\n- Error type: " ++
      jsOr c.errorType "unknown" ++
      "\n- Can user fix this: " ++
      jsOr c.canFix "unknown" ++
      "\n- Display surface: " ++
      jsOr c.surface "unknown" ++
      "\n\nConsider these factors when writing the error message:\n- Be specific about what went wrong\n- Provide clear next steps if the user can fix it\n- Match the tone to the user type and severity\n- Keep it appropriate for the display context\n\nAlways provide exactly 2-3 new error message alternatives. Each suggestion should be on a new line. Do not include numbers, bullets, or extra formatting - just the clean copy suggestions."
    else if c.mode = "suggest_pattern" then
      "You are an expert UX designer specializing in error handling patterns and information architecture. " ++
      productInstructions ++
      "\n\nYour task is to recommend design patterns for displaying error information based on:\n- User type: " ++
      jsOr c.userType "unknown" ++
      "\n- Display surface: " ++
      jsOr c.surface "unknown" ++
      "\n\nProvide 2-3 specific design pattern recommendations that include:\n- Pattern name (e.g., \"Inline validation\", \"Error banner\")\n- When to use it\n- Visual/interaction details\n- Why it's appropriate for this context\n\nFormat each recommendation as a complete suggestion on a new line. Do not include numbers, bullets, or extra formatting."
    else
      "You are an expert UX copywriter. " ++
      productInstructions ++
      "\n\nAlways provide exactly 2-3 improved alternatives. Each suggestion should be on a new line. Do not include numbers, bullets, or extra formatting - just the clean copy suggestions."
  | none =>
      "You are an expert UX copywriter. " ++
      productInstructions ++
      "\n\nAlways provide exactly 2-3 improved alternatives. Each suggestion should be on a new line. Do not include numbers, bullets, or extra formatting - just the clean copy suggestions."

/-- Extension appended to the system prompt when reference-file URLs are
present. -/
def referenceToneNote : String :=
  "\n\nIMPORTANT: Reference documents have been provided that contain examples, style guides, or brand guidelines for this product. Please review these files and ensure your suggestions align with the established tone, style, and patterns shown in the reference materials."

/-- The full system prompt: base template plus the reference-files extension
when URLs are present. -/
def buildSystemPrompt (productInstructions : String) (context : Option CopyContext)
    (referenceFileUrls : List String) : String :=
  buildSystemPromptBase productInstructions context ++
    (if referenceFileUrls.length > 0 then referenceToneNote else "")

/-- JS `array.join(sep)`. -/
def joinSep (sep : String) : List String → String
  | [] => ""
  | [x] => x
  | x :: y :: xs => x ++ sep ++ joinSep sep (y :: xs)

/-- The numbered reference-file lines:
`referenceFileUrls.map((url, index) => (index + 1) + '. ' + base + url)`. -/
def numberedRefLines (base : String) : Nat → List String → List String
  | _, [] => []
  | i, url :: rest => (toString (i + 1) ++ ". " ++ base ++ url) :: numberedRefLines base (i + 1) rest

/-- Content of the separate reference-documents message; `appUrl` is
`process.env.NEXT_PUBLIC_APP_URL`, defaulted to the localhost base. -/
def referenceFilesMessage (appUrl : Option String) (referenceFileUrls : List String) : String :=
  "Reference documents for context (please review these for tone and style guidance):\n" ++
    joinSep "\n" (numberedRefLines (jsOr appUrl "http://localhost:3000") 0 referenceFileUrls)

/-- User-facing message text of the final chat message, dispatching on
`context?.mode` with the improve-copy fallback. -/
def buildUserMessageText (badCopy : String) (context : Option CopyContext) : String :=
  match context with
  | some c =>
    if c.mode = "improve_copy" then
      "Please improve this UI copy: \"" ++ badCopy ++ "\""
    else if c.mode = "write_new" then
      if badCopy ≠ "" then
        "Please write new error message copy for this context. Current copy (if any): \"" ++ badCopy ++ "\""
      else
        "Please write new error message copy for this context."
    else if c.mode = "suggest_pattern" then
      if badCopy ≠ "" then
        "Please suggest design patterns for displaying error information. Context description: \"" ++ badCopy ++ "\""
      else
        "Please suggest design patterns for displaying error information in this context."
    else
      "Please improve this UI copy: \"" ++ badCopy ++ "\""
  | none => "Please improve this UI copy: \"" ++ badCopy ++ "\""

/-- Content of one chat message: plain text, or the two-part text + inlined
image payload. -/
inductive MessageContent
  | text (s : String)
  | withImage (s : String) (dataUrl : String)
deriving DecidableEq, Repr

/-- One role-tagged message of the composed prompt. -/
structure ChatMessage where
  role : String
  content : MessageContent
deriving DecidableEq, Repr

/-- The text part of a message's content. -/
def MessageContent.textPart : MessageContent → String
  | .text s => s
  | .withImage s _ => s

/-- The final user message: plain text, or the two-part text + image payload
when `imageBase64` is truthy. -/
def mainUserMessage (badCopy : String) (imageBase64 : Option String)
    (context : Option CopyContext) : ChatMessage :=
  { role := "user",
    content :=
      if jsTruthy imageBase64 then
        .withImage (buildUserMessageText badCopy context)
          ("data:image/jpeg;base64," ++ jsOr imageBase64 "")
      else .text (buildUserMessageText badCopy context) }

/-- The full message list composed by `generateCopySuggestions`: system
message, optional reference-documents message, then the main user message. -/
def buildMessages (badCopy productInstructions : String) (imageBase64 : Option String)
    (referenceFileUrls : List String) (context : Option CopyContext)
    (appUrl : Option String) : List ChatMessage :=
  { role := "system",
    content := .text (buildSystemPrompt productInstructions context referenceFileUrls) } ::
  (if referenceFileUrls.length > 0 then
    [{ role := "user", content := .text (referenceFilesMessage appUrl referenceFileUrls) }]
  else []) ++
  [mainUserMessage badCopy imageBase64 context]

/-- `pattern` occurs verbatim as a substring of `s`. -/
def ContainsStr (s pattern : String) : Prop :=
  ∃ p q, s = p ++ pattern ++ q

theorem containsStr_refl (s : String) : ContainsStr s s :=
  ⟨"", "", by simp [String.empty_append, String.append_empty]⟩

theorem containsStr_append_right (s t pattern : String)
    (h : ContainsStr s pattern) : ContainsStr (s ++ t) pattern := by
  obtain ⟨p, q, rfl⟩ := h
  exact ⟨p, q ++ t, by simp [String.append_assoc]⟩

theorem containsStr_append_left (s t pattern : String)
    (h : ContainsStr s pattern) : ContainsStr (t ++ s) pattern := by
  obtain ⟨p, q, rfl⟩ := h
  exact ⟨t ++ p, q, by simp [String.append_assoc]⟩

theorem containsStr_trans (s t pattern : String)
    (h₁ : ContainsStr s t) (h₂ : ContainsStr t pattern) : ContainsStr s pattern := by
  obtain ⟨p, q, rfl⟩ := h₁
  obtain ⟨p', q', rfl⟩ := h₂
  exact ⟨p ++ p', q' ++ q, by simp [String.append_assoc]⟩

theorem containsStr_middle (p pattern q : String) :
    ContainsStr (p ++ pattern ++ q) pattern :=
  ⟨p, q, rfl⟩

theorem containsStr_joinSep (sep : String) (l : List String) (x : String)
    (hx : x ∈ l) : ContainsStr (joinSep sep l) x := by
  induction l with
  | nil => cases hx
  | cons a rest ih =>
    cases rest with
    | nil =>
      rcases List.mem_singleton.mp hx with rfl
      exact containsStr_refl x
    | cons b rest' =>
      rcases List.mem_cons.mp hx with rfl | hmem
      · show ContainsStr (x ++ sep ++ joinSep sep (b :: rest')) x
        exact containsStr_append_right _ _ _ (containsStr_append_right _ _ _ (containsStr_refl x))
      · show ContainsStr (a ++ sep ++ joinSep sep (b :: rest')) x
        exact containsStr_append_left _ _ _ (ih hmem)

theorem mem_numberedRefLines (base : String) (urls : List String) (u : String)
    (hu : u ∈ urls) (i : Nat) :
    ∃ line ∈ numberedRefLines base i urls, ContainsStr line (base ++ u) := by
  induction urls generalizing i with
  | nil => cases hu
  | cons a rest ih =>
    rcases List.mem_cons.mp hu with rfl | hmem
    · refine ⟨toString (i + 1) ++ ". " ++ base ++ u, List.mem_cons_self _ _, ?_⟩
      exact ⟨toString (i + 1) ++ ". ", "",
        by simp [String.append_assoc, String.append_empty]⟩
    · obtain ⟨line, hline, hc⟩ := ih hmem (i + 1)
      exact ⟨line, List.mem_cons_of_mem _ hline, hc⟩

theorem referenceFilesMessage_contains (appUrl : Option String)
    (urls : List String) (u : String) (hu : u ∈ urls) :
    ContainsStr (referenceFilesMessage appUrl urls)
      (jsOr appUrl "http://localhost:3000" ++ u) := by
  obtain ⟨line, hline, hc⟩ :=
    mem_numberedRefLines (jsOr appUrl "http://localhost:3000") urls u hu 0
  unfold referenceFilesMessage
  exact containsStr_append_left _ _ _
    (containsStr_trans _ _ _ (containsStr_joinSep "\n" _ _ hline) hc)

theorem containsStr_of_contains_prefixed (s base u : String)
    (h : ContainsStr s (base ++ u)) : ContainsStr s u :=
  containsStr_trans _ _ _ h ⟨base, "", by simp [String.append_assoc, String.append_empty]⟩

theorem containsStr_append_pattern_right (a pattern : String) :
    ContainsStr (a ++ pattern) pattern :=
  ⟨a, "", by simp [String.append_empty]⟩

theorem buildSystemPromptBase_contains_instructions (productInstructions : String)
    (context : Option CopyContext) :
    ContainsStr (buildSystemPromptBase productInstructions context)
      productInstructions := by
  unfold buildSystemPromptBase
  cases context with
  | none =>
    exact containsStr_append_right _ _ _ (containsStr_append_pattern_right _ _)
  | some c =>
    dsimp only
    split_ifs <;>
      repeat first
        | exact containsStr_append_pattern_right _ _
        | apply containsStr_append_right

/-- C6: for every generation mode among `improve_copy`, `write_new` and
`suggest_pattern` and every instructions string, the system prompt contains
the product instructions verbatim as a substring. -/
theorem systemPrompt_contains_instructions_spec (productInstructions : String)
    (c : CopyContext) (referenceFileUrls : List String)
    (_h : c.mode = "improve_copy" ∨ c.mode = "write_new" ∨ c.mode = "suggest_pattern") :
    ContainsStr (buildSystemPrompt productInstructions (some c) referenceFileUrls)
      productInstructions := by
  unfold buildSystemPrompt
  split
  · exact containsStr_append_right _ _ _
      (buildSystemPromptBase_contains_instructions _ _)
  · exact containsStr_append_right _ _ _
      (buildSystemPromptBase_contains_instructions _ _)

/-- Witness for C6: the improve-copy system prompt contains the concrete
instructions string. -/
theorem systemPrompt_contains_instructions_spec_witness :
    (("improve_copy" : String) = "improve_copy" ∨ ("improve_copy" : String) = "write_new" ∨
      ("improve_copy" : String) = "suggest_pattern") ∧
    ContainsStr
      (buildSystemPrompt "Write in a friendly tone."
        (some ⟨"improve_copy", none, none, none, none⟩) [])
      "Write in a friendly tone." :=
  ⟨Or.inl rfl,
    systemPrompt_contains_instructions_spec "Write in a friendly tone."
      ⟨"improve_copy", none, none, none, none⟩ [] (Or.inl rfl)⟩

/-- C7: the composed message list carries the reference-file URLs exactly when
the URL list is non-empty: the system prompt is extended with the
tone-alignment note, a separate user message listing the absolute URL
(`appUrl` base ++ url) of each reference file is added, and every supplied URL
occurs in that message; with no URLs, neither the extension nor the extra
message is present. -/
theorem buildMessages_referenceFiles_spec (badCopy productInstructions : String)
    (imageBase64 : Option String) (refs : List String)
    (context : Option CopyContext) (appUrl : Option String) :
    (refs ≠ [] →
      buildSystemPrompt productInstructions context refs
        = buildSystemPromptBase productInstructions context ++ referenceToneNote ∧
      buildMessages badCopy productInstructions imageBase64 refs context appUrl
        = [{ role := "system",
             content := .text (buildSystemPrompt productInstructions context refs) },
           { role := "user", content := .text (referenceFilesMessage appUrl refs) },
           mainUserMessage badCopy imageBase64 context] ∧
      (∀ u ∈ refs,
        ∃ m ∈ buildMessages badCopy productInstructions imageBase64 refs context appUrl,
          m.role = "user" ∧
          ContainsStr m.content.textPart (jsOr appUrl "http://localhost:3000" ++ u) ∧
          ContainsStr m.content.textPart u)) ∧
    (refs = [] →
      buildSystemPrompt productInstructions context refs
        = buildSystemPromptBase productInstructions context ∧
      buildMessages badCopy productInstructions imageBase64 refs context appUrl
        = [{ role := "system",
             content := .text (buildSystemPromptBase productInstructions context) },
           mainUserMessage badCopy imageBase64 context]) := by
  constructor
  · intro hne
    have hlen : refs.length > 0 := List.length_pos.mpr hne
    refine ⟨?_, ?_, ?_⟩
    · unfold buildSystemPrompt
      rw [if_pos hlen]
    · unfold buildMessages
      rw [if_pos hlen]
      rfl
    · intro u hu
      refine ⟨{ role := "user", content := .text (referenceFilesMessage appUrl refs) }, ?_, rfl, ?_, ?_⟩
      · unfold buildMessages
        rw [if_pos hlen]
        simp
      · exact referenceFilesMessage_contains appUrl refs u hu
      · exact containsStr_of_contains_prefixed _ _ _
          (referenceFilesMessage_contains appUrl refs u hu)
  · intro hnil
    subst hnil
    constructor
    · unfold buildSystemPrompt
      simp [String.append_empty]
    · unfold buildMessages buildSystemPrompt
      simp [String.append_empty]

/-- Witness for C7 at a concrete URL list (both the non-empty and the empty
case). -/
theorem buildMessages_referenceFiles_spec_witness :
    (buildSystemPrompt "I" (some ⟨"improve_copy", none, none, none, none⟩) ["/files/a.pdf"]
      = buildSystemPromptBase "I" (some ⟨"improve_copy", none, none, none, none⟩) ++
          referenceToneNote) ∧
    (buildMessages "hi" "I" none [] (some ⟨"improve_copy", none, none, none, none⟩) none
      = [{ role := "system",
           content := .text (buildSystemPromptBase "I"
             (some ⟨"improve_copy", none, none, none, none⟩)) },
         mainUserMessage "hi" none (some ⟨"improve_copy", none, none, none, none⟩)]) :=
  ⟨((buildMessages_referenceFiles_spec "hi" "I" none ["/files/a.pdf"]
      (some ⟨"improve_copy", none, none, none, none⟩) none).1 (by decide)).1,
   ((buildMessages_referenceFiles_spec "hi" "I" none []
      (some ⟨"improve_copy", none, none, none, none⟩) none).2 rfl).2⟩

/-- C2 counterexample: for the unrecognized mode `"legacy"`, the system prompt
is NOT the one produced for `improve_copy` with the same inputs — the fallback
template is a distinct, shorter string. -/
theorem unrecognizedMode_not_improveCopy_prompt :
    buildSystemPromptBase "I" (some ⟨"legacy", none, none, none, none⟩)
      ≠ buildSystemPromptBase "I" (some ⟨"improve_copy", none, none, none, none⟩) := by
  decide

/-- C2 amended: an unrecognized mode falls back to the original generic
template: the user message is the same as for `improve_copy`, but the system
prompt is the shorter generic-copywriter template (not the `improve_copy`
system prompt). -/
theorem unrecognizedMode_fallback_spec (mode badCopy productInstructions : String)
    (ut et cf sf : Option String)
    (h1 : mode ≠ "improve_copy") (h2 : mode ≠ "write_new")
    (h3 : mode ≠ "suggest_pattern") :
    buildUserMessageText badCopy (some ⟨mode, ut, et, cf, sf⟩)
      = buildUserMessageText badCopy (some ⟨"improve_copy", ut, et, cf, sf⟩) ∧
    buildSystemPromptBase productInstructions (some ⟨mode, ut, et, cf, sf⟩)
      = "You are an expert UX copywriter. " ++ productInstructions ++
        "\n\nAlways provide exactly 2-3 improved alternatives. Each suggestion should be on a new line. Do not include numbers, bullets, or extra formatting - just the clean copy suggestions." := by
  constructor
  · unfold buildUserMessageText
    simp [h1, h2, h3]
  · unfold buildSystemPromptBase
    simp [h1, h2, h3]

/-- Witness for the amended C2 at the concrete unrecognized mode `"legacy"`. -/
theorem unrecognizedMode_fallback_spec_witness :
    buildUserMessageText "hello" (some ⟨"legacy", none, none, none, none⟩)
      = buildUserMessageText "hello" (some ⟨"improve_copy", none, none, none, none⟩) ∧
    buildSystemPromptBase "I" (some ⟨"legacy", none, none, none, none⟩)
      = "You are an expert UX copywriter. " ++ "I" ++
        "\n\nAlways provide exactly 2-3 improved alternatives. Each suggestion should be on a new line. Do not include numbers, bullets, or extra formatting - just the clean copy suggestions." :=
  unrecognizedMode_fallback_spec "legacy" "hello" "I" none none none none
    (by decide) (by decide) (by decide)

/-- The distinct failure classes thrown by `generateCopySuggestions`, one per
`throw` site. -/
inductive LLMFailure
  | missingApiKey
  | authenticationFailed
  | rateLimited
  | serverError
  | apiError (status : Nat) (statusText : String)
  | emptyContent
deriving DecidableEq, Repr

/-- Outcome of one run of `generateCopySuggestions` given the environment
credential and the upstream HTTP response (status, status text, and the
optional `choices[0]?.message?.content`). The second component records
whether the network call was made: the missing-credential check happens
before `fetch`. -/
def generateCopySuggestionsOutcome (apiKey : Option String) (status : Nat)
    (statusText : String) (content : Option String) :
    Except LLMFailure (List String) × Bool :=
  if ¬ jsTruthy apiKey then (.error .missingApiKey, false)
  else if ¬ (200 ≤ status ∧ status < 300) then
    if status = 401 then (.error .authenticationFailed, true)
    else if status = 429 then (.error .rateLimited, true)
    else if status = 500 then (.error .serverError, true)
    else (.error (.apiError status statusText), true)
  else if ¬ jsTruthy content then (.error .emptyContent, true)
  else (.ok (parseSuggestions (jsOr content "")), true)

/-- C3 counterexample: an HTTP 502 response is classified as the generic
upstream error carrying status and status text, not as the upstream-service
(server) error that the claim assigns to every 5xx status. -/
theorem http502_not_serverError :
    generateCopySuggestionsOutcome (some "key") 502 "Bad Gateway" (some "ok")
      = (.error (.apiError 502 "Bad Gateway"), true) ∧
    (generateCopySuggestionsOutcome (some "key") 502 "Bad Gateway" (some "ok")).1
      ≠ .error LLMFailure.serverError := by
  refine ⟨rfl, ?_⟩
  intro h
  exact LLMFailure.noConfusion (Except.error.inj h)

/-- C3 amended: the classification of `generateCopySuggestions` failures:
missing credential fails before any network call; 401 → authentication
error; 429 → rate-limit error; exactly HTTP 500 (not every 5xx) →
upstream-service error; every other non-2xx status → generic upstream error
carrying status code and status text; a 2xx response with empty or absent
content → empty-response error. -/
theorem generateCopySuggestions_failure_classification (apiKey : Option String)
    (status : Nat) (statusText : String) (content : Option String) :
    (jsTruthy apiKey = false →
      generateCopySuggestionsOutcome apiKey status statusText content
        = (.error .missingApiKey, false)) ∧
    (jsTruthy apiKey = true → status = 401 →
      generateCopySuggestionsOutcome apiKey status statusText content
        = (.error .authenticationFailed, true)) ∧
    (jsTruthy apiKey = true → status = 429 →
      generateCopySuggestionsOutcome apiKey status statusText content
        = (.error .rateLimited, true)) ∧
    (jsTruthy apiKey = true → status = 500 →
      generateCopySuggestionsOutcome apiKey status statusText content
        = (.error .serverError, true)) ∧
    (jsTruthy apiKey = true → ¬ (200 ≤ status ∧ status < 300) →
      status ≠ 401 → status ≠ 429 → status ≠ 500 →
      generateCopySuggestionsOutcome apiKey status statusText content
        = (.error (.apiError status statusText), true)) ∧
    (jsTruthy apiKey = true → 200 ≤ status ∧ status < 300 →
      jsTruthy content = false →
      generateCopySuggestionsOutcome apiKey status statusText content
        = (.error .emptyContent, true)) := by
  refine ⟨?_, ?_, ?_, ?_, ?_, ?_⟩
  · intro hk
    unfold generateCopySuggestionsOutcome
    simp [hk]
  · intro hk hs
    subst hs
    unfold generateCopySuggestionsOutcome
    simp [hk]
  · intro hk hs
    subst hs
    unfold generateCopySuggestionsOutcome
    simp [hk]
  · intro hk hs
    subst hs
    unfold generateCopySuggestionsOutcome
    simp [hk]
  · intro hk hok h1 h2 h3
    unfold generateCopySuggestionsOutcome
    simp [hk, hok, h1, h2, h3]
  · intro hk hok hc
    unfold generateCopySuggestionsOutcome
    simp [hk, hok, hc]

/-- Witness for the amended C3 classification, discharging each branch at
concrete inputs. -/
theorem generateCopySuggestions_failure_classification_witness :
    (generateCopySuggestionsOutcome none 200 "OK" (some "x")
      = (.error .missingApiKey, false)) ∧
    (generateCopySuggestionsOutcome (some "k") 401 "Unauthorized" (some "x")
      = (.error .authenticationFailed, true)) ∧
    (generateCopySuggestionsOutcome (some "k") 429 "Too Many" (some "x")
      = (.error .rateLimited, true)) ∧
    (generateCopySuggestionsOutcome (some "k") 500 "Server Error" (some "x")
      = (.error .serverError, true)) ∧
    (generateCopySuggestionsOutcome (some "k") 503 "Unavailable" (some "x")
      = (.error (.apiError 503 "Unavailable"), true)) ∧
    (generateCopySuggestionsOutcome (some "k") 200 "OK" none
      = (.error .emptyContent, true)) :=
  ⟨(generateCopySuggestions_failure_classification none 200 "OK" (some "x")).1 (by decide),
   (generateCopySuggestions_failure_classification (some "k") 401 "Unauthorized"
      (some "x")).2.1 (by decide) rfl,
   (generateCopySuggestions_failure_classification (some "k") 429 "Too Many"
      (some "x")).2.2.1 (by decide) rfl,
   (generateCopySuggestions_failure_classification (some "k") 500 "Server Error"
      (some "x")).2.2.2.1 (by decide) rfl,
   (generateCopySuggestions_failure_classification (some "k") 503 "Unavailable"
      (some "x")).2.2.2.2.1 (by decide) (by decide) (by decide) (by decide) (by decide),
   (generateCopySuggestions_failure_classification (some "k") 200 "OK"
      none).2.2.2.2.2 (by decide) (by decide) (by decide)⟩

/-- JS `s.includes(pattern)`. -/
def containsB (s pattern : String) : Bool :=
  s.data.tails.any (fun t => pattern.data.isPrefixOf t)

/-- User-facing message derived in the `/generate` route from an OpenRouter
error message. -/
def openRouterUserMessage (msg : String) : String :=
  if containsB msg "API key" then "OpenRouter API key is invalid or missing"
  else if containsB msg "429" then "Rate limit exceeded. Please try again later"
  else if containsB msg "401" then "OpenRouter API authentication failed"
  else if containsB msg "network" || containsB msg "fetch" then
    "Network error: Unable to reach AI service"
  else "AI service error: " ++ msg

/-- Environment configuration read by the `/generate` route. -/
structure GenEnv where
  openRouterKey : Option String
  supabaseUrl : Option String
  supabaseServiceKey : Option String

/-- Form fields of a POST `/generate` request (absent fields are `none`);
`screenshot` is the optional uploaded file, recorded by its byte size. -/
structure GenForm where
  mode : Option String := none
  productTypeId : Option String := none
  badCopy : Option String := none
  inputCopy : Option String := none
  userType : Option String := none
  errorType : Option String := none
  canFix : Option String := none
  surface : Option String := none
  screenshot : Option Nat := none

/-- One reference-file descriptor stored on a ProductType row (only the URL
is read by the `/generate` route). -/
structure ReferenceFile where
  url : String
deriving DecidableEq, Repr

/-- The ProductType row read by the `/generate` route. -/
structure ProductTypeRow where
  instructions : String
  reference_files : List ReferenceFile

/-- Response body of the `/generate` route. -/
inductive GenBody
  | errorMsg (e : String)
  | suggestions (ss : List String)
deriving DecidableEq, Repr

/-- The POST `/generate` handler. External effects are passed as oracles:
`fetchProductType` is the datastore read, `convert` the screenshot base64
conversion, `llmResult` the `generateCopySuggestions` call, and `insertOk`
whether the Submission insert succeeds. Returns the HTTP response and
whether a Submission row was written. -/
def generatePOST (env : GenEnv) (form : GenForm)
    (fetchProductType : String → Option ProductTypeRow)
    (convert : Except String String)
    (llmResult : Except String (List String))
    (insertOk : Bool) : (Nat × GenBody) × Bool :=
  if ¬ jsTruthy env.openRouterKey then
    ((500, .errorMsg "OpenRouter API key not configured. Please check environment variables."), false)
  else if ¬ (jsTruthy env.supabaseUrl ∧ jsTruthy env.supabaseServiceKey) then
    ((500, .errorMsg "Database configuration incomplete. Please check environment variables."), false)
  else
    let mode := jsOr form.mode "improve_copy"
    let badCopy := jsOr form.badCopy (jsOr form.inputCopy "")
    if ¬ jsTruthy form.productTypeId then
      ((400, .errorMsg "Product type is required"), false)
    else if mode = "improve_copy" ∧ badCopy = "" then
      ((400, .errorMsg "Original copy is required for improvement mode"), false)
    else
      match fetchProductType (jsOr form.productTypeId "") with
      | none => ((400, .errorMsg "Invalid product type"), false)
      | some _pt =>
        match form.screenshot, convert with
        | some size, .error convErr =>
          if size > 0 then
            ((500, .errorMsg ("Failed to process screenshot: " ++ convErr)), false)
          else
            match llmResult with
            | .error msg => ((500, .errorMsg (openRouterUserMessage msg)), false)
            | .ok suggestions => ((200, .suggestions suggestions), insertOk)
        | _, _ =>
          match llmResult with
          | .error msg => ((500, .errorMsg (openRouterUserMessage msg)), false)
          | .ok suggestions => ((200, .suggestions suggestions), insertOk)

/-- The screenshot-conversion step of the `/generate` route fails: a
screenshot of positive size was supplied and the base64 conversion errors. -/
def screenshotConversionFails (form : GenForm) (convert : Except String String) : Prop :=
  ∃ size e, form.screenshot = some size ∧ convert = Except.error e ∧ size > 0

/-- C4: with the environment configured, a `/generate` request without
`productTypeId` is rejected 400 `Product type is required` with no Submission
written; an `improve_copy` request with empty input copy is rejected 400; and
a `write_new` or `suggest_pattern` request with empty input copy is never
rejected with the missing-input-copy error. -/
theorem generatePOST_validation_spec (env : GenEnv) (form : GenForm)
    (fetchProductType : String → Option ProductTypeRow)
    (convert : Except String String) (llmResult : Except String (List String))
    (insertOk : Bool)
    (hk : jsTruthy env.openRouterKey = true)
    (hsu : jsTruthy env.supabaseUrl = true)
    (hss : jsTruthy env.supabaseServiceKey = true) :
    (jsTruthy form.productTypeId = false →
      generatePOST env form fetchProductType convert llmResult insertOk
        = ((400, .errorMsg "Product type is required"), false)) ∧
    (jsTruthy form.productTypeId = true →
      jsOr form.mode "improve_copy" = "improve_copy" →
      jsOr form.badCopy (jsOr form.inputCopy "") = "" →
      generatePOST env form fetchProductType convert llmResult insertOk
        = ((400, .errorMsg "Original copy is required for improvement mode"), false)) ∧
    (jsTruthy form.productTypeId = true →
      (jsOr form.mode "improve_copy" = "write_new" ∨
        jsOr form.mode "improve_copy" = "suggest_pattern") →
      jsOr form.badCopy (jsOr form.inputCopy "") = "" →
      (generatePOST env form fetchProductType convert llmResult insertOk).1
        ≠ (400, .errorMsg "Original copy is required for improvement mode")) := by
  refine ⟨?_, ?_, ?_⟩
  · intro hpt
    unfold generatePOST
    simp [hk, hsu, hss, hpt]
  · intro hpt hmode hcopy
    unfold generatePOST
    simp [hk, hsu, hss, hpt, hmode, hcopy]
  · intro hpt hmode hcopy
    have hmne : ¬ (jsOr form.mode "improve_copy" = "improve_copy" ∧
        jsOr form.badCopy (jsOr form.inputCopy "") = "") := by
      rcases hmode with h | h <;> rw [h] <;> simp
    unfold generatePOST
    simp [hk, hsu, hss, hpt, hmne]
    cases hf : fetchProductType (jsOr form.productTypeId "") with
    | none => simp
    | some pt =>
      rcases form.screenshot with _ | size <;> rcases convert with e | s <;>
        rcases llmResult with msg | ss <;> try simp
      all_goals by_cases hsz : 0 < size <;> simp [hsz]

/-- Witness for C4 at concrete requests: missing `productTypeId`, an
`improve_copy` request with empty copy, and a `write_new` request with empty
copy. -/
theorem generatePOST_validation_spec_witness :
    (generatePOST ⟨some "k", some "u", some "s"⟩ {} (fun _ => none)
        (.ok "") (.ok ["a"]) true
      = ((400, .errorMsg "Product type is required"), false)) ∧
    (generatePOST ⟨some "k", some "u", some "s"⟩ { productTypeId := some "p1" }
        (fun _ => none) (.ok "") (.ok ["a"]) true
      = ((400, .errorMsg "Original copy is required for improvement mode"), false)) ∧
    ((generatePOST ⟨some "k", some "u", some "s"⟩
        { mode := some "write_new", productTypeId := some "p1" }
        (fun _ => none) (.ok "") (.ok ["a"]) true).1
      ≠ (400, .errorMsg "Original copy is required for improvement mode")) :=
  ⟨(generatePOST_validation_spec ⟨some "k", some "u", some "s"⟩ {} (fun _ => none)
      (.ok "") (.ok ["a"]) true (by decide) (by decide) (by decide)).1 (by decide),
   (generatePOST_validation_spec ⟨some "k", some "u", some "s"⟩
      { productTypeId := some "p1" } (fun _ => none)
      (.ok "") (.ok ["a"]) true (by decide) (by decide) (by decide)).2.1
        (by decide) (by decide) (by decide),
   (generatePOST_validation_spec ⟨some "k", some "u", some "s"⟩
      { mode := some "write_new", productTypeId := some "p1" } (fun _ => none)
      (.ok "") (.ok ["a"]) true (by decide) (by decide) (by decide)).2.2
        (by decide) (Or.inl (by decide)) (by decide)⟩

/-- C5: a failure while persisting the Submission is non-fatal — the HTTP
response of the `/generate` route never depends on the submission-insert
outcome, and once the suggestion list has been obtained the response is the
success payload carrying exactly those suggestions. -/
theorem generatePOST_submissionFailure_nonfatal (env : GenEnv) (form : GenForm)
    (fetchProductType : String → Option ProductTypeRow)
    (convert : Except String String) (ss : List String) (ins₁ ins₂ : Bool) :
    ((generatePOST env form fetchProductType convert (.ok ss) ins₁).1
      = (generatePOST env form fetchProductType convert (.ok ss) ins₂).1) ∧
    (jsTruthy env.openRouterKey = true →
      jsTruthy env.supabaseUrl = true → jsTruthy env.supabaseServiceKey = true →
      jsTruthy form.productTypeId = true →
      ¬ (jsOr form.mode "improve_copy" = "improve_copy" ∧
          jsOr form.badCopy (jsOr form.inputCopy "") = "") →
      (fetchProductType (jsOr form.productTypeId "")).isSome = true →
      ¬ screenshotConversionFails form convert →
      (generatePOST env form fetchProductType convert (.ok ss) ins₁).1
        = (200, .suggestions ss)) := by
  constructor
  · simp only [generatePOST]
    repeat' split
    all_goals rfl
  · intro hk hsu hss hpt hmne hsome hconv
    obtain ⟨pt, hf⟩ := Option.isSome_iff_exists.mp hsome
    unfold generatePOST
    simp only [hk, hsu, hss, hpt, hmne, hf]
    simp only [not_true, if_false, ite_false, if_true, ite_true, and_self,
      not_false_iff, Bool.not_eq_true, eq_self_iff_true]
    cases hscr : form.screenshot with
    | none => simp
    | some size =>
      cases hcv : convert with
      | error e =>
        have hsz : ¬ size > 0 := fun hs => hconv ⟨size, e, hscr, hcv, hs⟩
        simp [hsz]
      | ok s => simp

/-- Witness for C5 at a concrete request whose generation succeeded but whose
submission insert fails. -/
theorem generatePOST_submissionFailure_nonfatal_witness :
    (generatePOST ⟨some "k", some "u", some "s"⟩
        { mode := some "write_new", productTypeId := some "p1" }
        (fun _ => some ⟨"I", []⟩) (.ok "") (.ok ["sug1"]) false).1
      = (200, .suggestions ["sug1"]) :=
  (generatePOST_submissionFailure_nonfatal ⟨some "k", some "u", some "s"⟩
      { mode := some "write_new", productTypeId := some "p1" }
      (fun _ => some ⟨"I", []⟩) (.ok "") ["sug1"] false true).2
    (by decide) (by decide) (by decide) (by decide) (by decide)
    (by simp) (by simp [screenshotConversionFails])

/-- A ProductType row as read by the admin `[id]` route handlers. -/
structure ProductTypeRec where
  id : String
  name : String
  instructions : String
  reference_files : List ReferenceFile
  created_at : String
deriving DecidableEq, Repr

/-- A Submission row (only the foreign key is read by the DELETE handler). -/
structure SubmissionRec where
  id : String
  product_type_id : String
deriving DecidableEq, Repr

/-- The two tables touched by the admin product-type routes. -/
structure AdminDB where
  product_types : List ProductTypeRec
  submissions : List SubmissionRec
deriving DecidableEq, Repr

/-- Response body of the DELETE `/product-types/[id]` route. -/
inductive DeleteBody
  | errorMsg (e : String)
  | deleted (message : String) (deletedId : String) (deletedName : String)
deriving DecidableEq, Repr

/-- The DELETE `/product-types/[id]` handler: existence check, then
related-submissions check (`limit(1)`), then the delete. Returns the HTTP
response and the resulting datastore state. -/
def deleteProductType (id : String) (db : AdminDB) : (Nat × DeleteBody) × AdminDB :=
  if id = "" then ((400, .errorMsg "Product type ID is required"), db)
  else
    match db.product_types.find? (fun r => r.id = id) with
    | none => ((404, .errorMsg "Product type not found"), db)
    | some existing =>
      let relatedSubmissions :=
        (db.submissions.filter (fun s => s.product_type_id = id)).take 1
      if relatedSubmissions.length > 0 then
        ((409, .errorMsg "Cannot delete product type"), db)
      else
        ((200, .deleted "Product type deleted successfully" id existing.name),
         { db with product_types := db.product_types.filter (fun r => ¬ r.id = id) })

/-- C8: DELETE returns 404 (state unchanged) when no ProductType has the id;
409 with both tables unchanged when a Submission references it; otherwise it
removes the record and returns the deleted name and id. -/
theorem deleteProductType_spec (id : String) (db : AdminDB) (hid : id ≠ "") :
    (db.product_types.find? (fun r => r.id = id) = none →
      deleteProductType id db = ((404, .errorMsg "Product type not found"), db)) ∧
    (∀ existing, db.product_types.find? (fun r => r.id = id) = some existing →
      (∃ s ∈ db.submissions, s.product_type_id = id) →
      deleteProductType id db = ((409, .errorMsg "Cannot delete product type"), db)) ∧
    (∀ existing, db.product_types.find? (fun r => r.id = id) = some existing →
      (∀ s ∈ db.submissions, s.product_type_id ≠ id) →
      deleteProductType id db
        = ((200, .deleted "Product type deleted successfully" id existing.name),
           { db with
              product_types := db.product_types.filter (fun r => ¬ r.id = id) })) := by
  refine ⟨?_, ?_, ?_⟩
  · intro hfind
    unfold deleteProductType
    rw [if_neg hid, hfind]
  · intro existing hfind hrel
    unfold deleteProductType
    rw [if_neg hid, hfind]
    obtain ⟨s, hs, hsid⟩ := hrel
    have hmem : s ∈ db.submissions.filter (fun s => s.product_type_id = id) :=
      List.mem_filter.mpr ⟨hs, by simp [hsid]⟩
    have hne : db.submissions.filter (fun s => s.product_type_id = id) ≠ [] :=
      List.ne_nil_of_mem hmem
    have hlen : ((db.submissions.filter (fun s => s.product_type_id = id)).take 1).length > 0 := by
      rw [List.length_take]
      have := List.length_pos.mpr hne
      omega
    simp only [hlen, if_true, ite_true]
  · intro existing hfind hnone
    unfold deleteProductType
    rw [if_neg hid, hfind]
    have hnil : db.submissions.filter (fun s => s.product_type_id = id) = [] := by
      apply List.filter_eq_nil_iff.mpr
      intro s hs
      simpa using hnone s hs
    simp [hnil]

/-- Witness for C8 at a concrete two-table state: missing id, referenced
record, and unreferenced record. -/
theorem deleteProductType_spec_witness :
    (deleteProductType "p9"
        ⟨[⟨"p1", "SaaS", "I", [], "t0"⟩], [⟨"s1", "p1"⟩]⟩
      = ((404, .errorMsg "Product type not found"),
         ⟨[⟨"p1", "SaaS", "I", [], "t0"⟩], [⟨"s1", "p1"⟩]⟩)) ∧
    (deleteProductType "p1"
        ⟨[⟨"p1", "SaaS", "I", [], "t0"⟩], [⟨"s1", "p1"⟩]⟩
      = ((409, .errorMsg "Cannot delete product type"),
         ⟨[⟨"p1", "SaaS", "I", [], "t0"⟩], [⟨"s1", "p1"⟩]⟩)) ∧
    (deleteProductType "p1"
        ⟨[⟨"p1", "SaaS", "I", [], "t0"⟩], [⟨"s1", "p2"⟩]⟩
      = ((200, .deleted "Product type deleted successfully" "p1" "SaaS"),
         ⟨[], [⟨"s1", "p2"⟩]⟩)) :=
  ⟨(deleteProductType_spec "p9" ⟨[⟨"p1", "SaaS", "I", [], "t0"⟩], [⟨"s1", "p1"⟩]⟩
      (by decide)).1 (by decide),
   (deleteProductType_spec "p1" ⟨[⟨"p1", "SaaS", "I", [], "t0"⟩], [⟨"s1", "p1"⟩]⟩
      (by decide)).2.1 ⟨"p1", "SaaS", "I", [], "t0"⟩ (by decide)
      ⟨⟨"s1", "p1"⟩, by decide, by decide⟩,
   (deleteProductType_spec "p1" ⟨[⟨"p1", "SaaS", "I", [], "t0"⟩], [⟨"s1", "p2"⟩]⟩
      (by decide)).2.2 ⟨"p1", "SaaS", "I", [], "t0"⟩ (by decide) (by decide)⟩

/-- Response body of the PUT `/product-types/[id]` route. -/
inductive PutBody
  | errorMsg (e : String)
  | updated (row : ProductTypeRec)
deriving DecidableEq, Repr

/-- The PUT `/product-types/[id]` handler: field presence check, name-conflict
check against other rows, then the update writing
`reference_files: referenceFiles || []`. Returns the HTTP response and the
resulting `product_types` table. -/
def putProductType (id : String) (name instructions : Option String)
    (referenceFiles : Option (List ReferenceFile))
    (rows : List ProductTypeRec) : (Nat × PutBody) × List ProductTypeRec :=
  if ¬ (id ≠ "" ∧ jsTruthy name ∧ jsTruthy instructions) then
    ((400, .errorMsg "ID, name and instructions are required"), rows)
  else if rows.any (fun r => r.name = jsOr name "" ∧ r.id ≠ id) then
    ((409, .errorMsg "A product type with this name already exists"), rows)
  else
    let newRows := rows.map (fun r =>
      if r.id = id then
        { r with
            name := jsOr name "",
            instructions := jsOr instructions "",
            reference_files := referenceFiles.getD [] }
      else r)
    match newRows.find? (fun r => r.id = id) with
    | none => ((404, .errorMsg "Product type not found"), newRows)
    | some updated => ((200, .updated updated), newRows)

/-- C9: a valid PUT whose body omits `referenceFiles` (or supplies a falsy
value, modelled as `none`) writes the empty list into the stored record's
`reference_files`, discarding whatever was attached before, rather than
leaving the field unchanged. -/
theorem putProductType_discards_referenceFiles (id : String)
    (name instructions : Option String) (rows : List ProductTypeRec)
    (hid : id ≠ "") (hname : jsTruthy name = true)
    (hinstr : jsTruthy instructions = true)
    (hconflict : ∀ r ∈ rows, ¬ (r.name = jsOr name "" ∧ r.id ≠ id))
    (hexists : ∃ r ∈ rows, r.id = id) :
    (putProductType id name instructions none rows).1.1 = 200 ∧
    (∀ r' ∈ (putProductType id name instructions none rows).2,
      r'.id = id → r'.reference_files = []) := by
  have hany : rows.any (fun r => r.name = jsOr name "" ∧ r.id ≠ id) = false := by
    rw [List.any_eq_false]
    intro r hr
    simpa using hconflict r hr
  have hguard : ¬ ¬ (id ≠ "" ∧ jsTruthy name ∧ jsTruthy instructions) := by
    simp [hid, hname, hinstr]
  constructor
  · unfold putProductType
    rw [if_neg hguard]
    simp only [hany, if_false, ite_false, Bool.false_eq_true]
    obtain ⟨r, hr, hrid⟩ := hexists
    have hmem : ∃ r', r' ∈ (rows.map (fun r =>
        if r.id = id then
          { r with
              name := jsOr name "",
              instructions := jsOr instructions "",
              reference_files := (none : Option (List ReferenceFile)).getD [] }
        else r)) ∧ r'.id = id := by
      refine ⟨if r.id = id then
          { r with
              name := jsOr name "",
              instructions := jsOr instructions "",
              reference_files := (none : Option (List ReferenceFile)).getD [] }
        else r, List.mem_map_of_mem _ hr, ?_⟩
      rw [if_pos hrid]
      exact hrid
    obtain ⟨r', hr'mem, hr'id⟩ := hmem
    have : (rows.map (fun r =>
        if r.id = id then
          { r with
              name := jsOr name "",
              instructions := jsOr instructions "",
              reference_files := (none : Option (List ReferenceFile)).getD [] }
        else r)).find? (fun r => r.id = id) ≠ none := by
      intro hnone
      have := List.find?_eq_none.mp hnone r' hr'mem
      simp [hr'id] at this
    cases hfind : (rows.map (fun r =>
        if r.id = id then
          { r with
              name := jsOr name "",
              instructions := jsOr instructions "",
              reference_files := (none : Option (List ReferenceFile)).getD [] }
        else r)).find? (fun r => r.id = id) with
    | none => exact absurd hfind this
    | some u => simp [hfind]
  · intro r' hr' hrid'
    unfold putProductType at hr'
    rw [if_neg hguard] at hr'
    simp only [hany, if_false, ite_false, Bool.false_eq_true] at hr'
    have hr'' : r' ∈ rows.map (fun r =>
        if r.id = id then
          { r with
              name := jsOr name "",
              instructions := jsOr instructions "",
              reference_files := (none : Option (List ReferenceFile)).getD [] }
        else r) := by
      rcases hfind : (rows.map (fun r =>
          if r.id = id then
            { r with
                name := jsOr name "",
                instructions := jsOr instructions "",
                reference_files := (none : Option (List ReferenceFile)).getD [] }
          else r)).find? (fun r => r.id = id) with _ | u <;>
        simp only [hfind] at hr' <;> exact hr'
    obtain ⟨r0, _hr0, heq⟩ := List.mem_map.mp hr''
    by_cases h0 : r0.id = id
    · rw [if_pos h0] at heq
      rw [← heq]
      rfl
    · rw [if_neg h0] at heq
      rw [← heq] at hrid'
      exact absurd hrid' h0

/-- Witness for C9: updating a record that previously held one reference file
with a body lacking `referenceFiles` empties the stored list. -/
theorem putProductType_discards_referenceFiles_witness :
    (putProductType "p1" (some "SaaS") (some "I2") none
        [⟨"p1", "SaaS", "I", [⟨"/files/a.pdf"⟩], "t0"⟩]).1.1 = 200 ∧
    (∀ r' ∈ (putProductType "p1" (some "SaaS") (some "I2") none
        [⟨"p1", "SaaS", "I", [⟨"/files/a.pdf"⟩], "t0"⟩]).2,
      r'.id = "p1" → r'.reference_files = []) :=
  putProductType_discards_referenceFiles "p1" (some "SaaS") (some "I2")
    [⟨"p1", "SaaS", "I", [⟨"/files/a.pdf"⟩], "t0"⟩]
    (by decide) (by decide) (by decide) (by decide) ⟨⟨"p1", "SaaS", "I", [⟨"/files/a.pdf"⟩], "t0"⟩, by decide, by decide⟩

/-- JS `s.split(sep)` for a single-character separator, on the character
list. -/
def jsSplitChar (sep : Char) : List Char → List (List Char)
  | [] => [[]]
  | c :: cs =>
    let r := jsSplitChar sep cs
    if c = sep then [] :: r
    else
      match r with
      | [] => [[c]]
      | x :: xs => (c :: x) :: xs

/-- JS `s.toLowerCase()` (ASCII range, as used for file extensions). -/
def jsToLower (s : String) : String :=
  String.mk (s.data.map Char.toLower)

/-- `MAX_FILE_SIZE` of the upload-reference route: 5MB. -/
def MAX_FILE_SIZE : Nat := 5 * 1024 * 1024

/-- `ALLOWED_TYPES` of the upload-reference route: the allowed lowercased
filename extensions. -/
def ALLOWED_TYPES : List String := [".pdf", ".png", ".jpg", ".jpeg", ".webp"]

/-- `'.' + file.name.split('.').pop()?.toLowerCase()`: the extension derived
from the uploaded filename alone. The `none` branch mirrors the JS
`undefined` coercion and is unreachable since a split is never empty. -/
def fileExtension (name : String) : String :=
  match (jsSplitChar '.' name.data).getLast? with
  | some l => "." ++ jsToLower (String.mk l)
  | none => ".undefined"

/-- Outcome of the validation phase of POST `/upload-reference`, before any
storage call: extension check first, then the size check, then the storage
upload is reached. -/
inductive UploadCheck
  | invalidType
  | tooLarge
  | proceedToStorage
deriving DecidableEq, Repr

set_option linter.unusedVariables false in
/-- The validation phase of POST `/upload-reference` on a present file with
name `name`, byte size `size` and declared MIME type `mimeType` (the MIME
type is never consulted). Both rejections return 400 before the storage
upload. -/
def validateUpload (name : String) (size : Nat) (mimeType : String) : UploadCheck :=
  if ¬ (ALLOWED_TYPES.contains (fileExtension name)) then .invalidType
  else if size > MAX_FILE_SIZE then .tooLarge
  else .proceedToStorage

/-- C10: upload validity is decided solely from the lowercased filename
extension — the outcome never depends on the declared MIME type; a
disallowed extension is rejected before any storage call regardless of MIME
type; an allowed extension passes the type check for every MIME type; and
the 5MB limit is enforced before any storage call. -/
theorem validateUpload_spec (name : String) (size : Nat) (mimeType mimeType' : String) :
    (validateUpload name size mimeType = validateUpload name size mimeType') ∧
    (¬ ALLOWED_TYPES.contains (fileExtension name) →
      validateUpload name size mimeType = .invalidType) ∧
    (ALLOWED_TYPES.contains (fileExtension name) → size > MAX_FILE_SIZE →
      validateUpload name size mimeType = .tooLarge) ∧
    (ALLOWED_TYPES.contains (fileExtension name) → size ≤ MAX_FILE_SIZE →
      validateUpload name size mimeType = .proceedToStorage) := by
  refine ⟨rfl, ?_, ?_, ?_⟩
  · intro h
    unfold validateUpload
    rw [if_pos h]
  · intro h hsz
    unfold validateUpload
    rw [if_neg (not_not_intro h), if_pos hsz]
  · intro h hsz
    unfold validateUpload
    rw [if_neg (not_not_intro h), if_neg (by omega)]

/-- Witness for C10: a `.zip` file is rejected whatever its MIME type, a
`.PDF` file with a non-document MIME type passes the type check, and an
oversized allowed file is rejected for size. -/
theorem validateUpload_spec_witness :
    (validateUpload "guide.zip" 10 "application/pdf" = .invalidType) ∧
    (validateUpload "guide.PDF" 10 "application/zip" = .proceedToStorage) ∧
    (validateUpload "guide.pdf" (5 * 1024 * 1024 + 1) "application/pdf" = .tooLarge) :=
  ⟨(validateUpload_spec "guide.zip" 10 "application/pdf" "x").2.1 (by decide),
   (validateUpload_spec "guide.PDF" 10 "application/zip" "x").2.2.2 (by decide) (by decide),
   (validateUpload_spec "guide.pdf" (5 * 1024 * 1024 + 1) "application/pdf" "x").2.2.1
     (by decide) (by decide)⟩
